import Mathlib

/-!
Shallow embedding of the quiz-bot session engine (`src/main.py`) and proofs of
the specification claims C1-C10.

Modelling conventions:
* Python `dict` keyed tables become association lists with `dictGet` /
  `dictSet` / `dictDel` (lookup by decidable equality; `dict[k] = v` replaces
  any earlier binding, `del dict[k]` removes it).
* Python `datetime` values are modelled by the timestamp they denote (a `Nat`);
  `datetime.isoformat` / `datetime.fromisoformat` are an exact inverse pair per
  the Python documentation, so the serialized timestamp carries the same value.
* Python `float` percentages are modelled by exact rationals (`Rat`); the
  arithmetic the code performs is `(correct / total) * 100`.
* Code that raises an exception before mutating state (ZeroDivisionError,
  IndexError, invalid enum value) is modelled with `Option` / an unchanged
  state, matching the observable store contents.
-/

namespace BotQA

/-- `dict.get k` / `k in dict` on a Python dict modelled as an association list. -/
def dictGet [DecidableEq κ] (k : κ) : List (κ × α) → Option α
  | [] => none
  | (k', v) :: rest => if k' = k then some v else dictGet k rest

/-- `dict[k] = v`: bind `k` to `v`, dropping any earlier binding of `k`. -/
def dictSet [DecidableEq κ] (k : κ) (v : α) (l : List (κ × α)) : List (κ × α) :=
  (k, v) :: l.filter (fun p => decide (¬ p.1 = k))

/-- `del dict[k]`: remove the binding of `k`. -/
def dictDel [DecidableEq κ] (k : κ) (l : List (κ × α)) : List (κ × α) :=
  l.filter (fun p => decide (¬ p.1 = k))

/-! ## Domain model (`main.py` dataclasses and enums) -/

/-- `class UserRole(Enum)`. -/
inductive UserRole
  | teacher
  | student
deriving DecidableEq, Repr

/-- `UserRole.value`. -/
def UserRole.value : UserRole → String
  | .teacher => "teacher"
  | .student => "student"

/-- `UserRole(s)` constructor from the serialized value; raises on other input. -/
def UserRole.ofValue (s : String) : Option UserRole :=
  if s = "teacher" then some .teacher
  else if s = "student" then some .student
  else none

/-- `class QuestionType(Enum)`. -/
inductive QuestionType
  | multipleChoice
  | textInput
deriving DecidableEq, Repr

/-- `QuestionType.value`. -/
def QuestionType.value : QuestionType → String
  | .multipleChoice => "multiple_choice"
  | .textInput => "text_input"

/-- `QuestionType(s)` constructor from the serialized value. -/
def QuestionType.ofValue (s : String) : Option QuestionType :=
  if s = "multiple_choice" then some .multipleChoice
  else if s = "text_input" then some .textInput
  else none

/-- `@dataclass class Question`. -/
structure Question where
  id : String
  text : String
  questionType : QuestionType
  options : Option (List String)
  correctAnswer : String
  photoFileId : Option String
deriving DecidableEq, Repr

/-- `@dataclass class Test`. -/
structure Test where
  id : String
  teacherId : Int
  teacherUsername : String
  questions : List Question
  createdAt : Nat
  name : String
  active : Bool
deriving DecidableEq, Repr

/-- `@dataclass class StudentAnswer`. -/
structure StudentAnswer where
  questionId : String
  answer : String
  isCorrect : Bool
  skipped : Bool
deriving DecidableEq, Repr

/-- `@dataclass class TestResult`. -/
structure TestResult where
  testId : String
  studentId : Int
  studentUsername : String
  answers : List StudentAnswer
  score : Nat
  totalQuestions : Nat
  percentage : Rat
  completedAt : Nat
  skippedCount : Nat
deriving DecidableEq, Repr

/-- The taking-session dict built in `start_test` and stored per user id. -/
structure Session where
  testId : String
  currentQuestion : Nat
  answers : List StudentAnswer
  startTime : Nat
  studentUsername : String
  studentId : Int
deriving DecidableEq, Repr

/-- `class DataStorage`: the in-memory tables plus the SQLite-backed session
tables (`user_test_sessions`, `active_user_tests`), each keyed as in the code. -/
structure DataStorage where
  users : List (Int × UserRole)
  tests : List (String × Test)
  testResults : List TestResult
  sessions : List (Int × Session)
  activeTests : List (Int × String)
deriving DecidableEq, Repr

/-! ## String helpers standing for the Python string methods used

Python strings are sequences of code points, so the methods are modelled
directly on the character list of the Lean string. -/

/-- Python `str.strip()`: drop leading and trailing whitespace. -/
def pyStrip (s : String) : String :=
  ⟨((s.data.dropWhile Char.isWhitespace).reverse.dropWhile Char.isWhitespace).reverse⟩

/-- Python `str.lower()`: lowercase the characters. -/
def pyLower (s : String) : String := ⟨s.data.map Char.toLower⟩

/-- Whether the first character list is an initial segment of the second. -/
def listPrefixEq : List Char → List Char → Bool
  | [], _ => true
  | _ :: _, [] => false
  | a :: as, b :: bs => a == b && listPrefixEq as bs

/-- Python `str.startswith(pre)`. -/
def pyStartsWith (s pre : String) : Bool := listPrefixEq pre.data s.data

/-- Python slicing `s[n:]`. -/
def pyDrop (s : String) (n : Nat) : String := ⟨s.data.drop n⟩

/-- Split a character list at each newline character. -/
def splitLinesAux : List Char → List (List Char)
  | [] => [[]]
  | c :: rest =>
    let r := splitLinesAux rest
    if c == '\n' then [] :: r
    else
      match r with
      | [] => [[c]]
      | h :: t => (c :: h) :: t

/-- Python `str.split('\n')`. -/
def pySplitNewline (s : String) : List String :=
  (splitLinesAux s.data).map (fun l => ⟨l⟩)

/-! ## Authoring wizard: option capture and correct-answer selection -/

/-- `process_options` (main.py:620-629): split the message text on newlines,
strip each line, discard empty lines; fewer than two options re-prompts
without advancing (modelled as `none`). -/
def process_options (text : String) : Option (List String) :=
  let options := ((pySplitNewline text).map pyStrip).filter (fun o => decide (¬ o = ""))
  if options.length < 2 then none else some options

/-- `process_correct_answer_choice` (main.py:642-651): resolve the selection
index into the just-entered options list; `options[correct_index]` raises
IndexError (no record captured) when the index is out of range. -/
def process_correct_answer_choice (options : List String) (correctIndex : Nat) :
    Option String :=
  options[correctIndex]?

/-- The ChoiceSet leg of the wizard from option entry through
`save_question_and_continue` (main.py:659-676): the assembled `Question` built
from the captured draft fields. -/
def buildChoiceQuestion (qid : String) (text : String) (optionsText : String)
    (correctIndex : Nat) (photo : Option String) : Option Question :=
  (process_options optionsText).bind fun opts =>
  (process_correct_answer_choice opts correctIndex).map fun ans =>
    { id := qid, text := text, questionType := .multipleChoice,
      options := some opts, correctAnswer := ans, photoFileId := photo }

/-! ## Scoring (`finish_test`, main.py:1222-1226) -/

/-- The score computation in `finish_test`:
`correct_count = sum(1 for a in answers if a.is_correct)`,
`skipped_count = sum(1 for a in answers if a.skipped)`,
`percentage = (correct_count / total_questions) * 100`.
When `total_questions = 0` the division raises ZeroDivisionError, so no
triple is produced (modelled as `none`). -/
def computeScore (answers : List StudentAnswer) (totalQuestions : Nat) :
    Option (Nat × Nat × Rat) :=
  let correctCount := (answers.filter (·.isCorrect)).length
  let skippedCount := (answers.filter (·.skipped)).length
  if totalQuestions = 0 then none
  else some (correctCount, skippedCount,
             ((correctCount : Rat) / (totalQuestions : Rat)) * 100)

/-! ## Taking state machine -/

/-- The session dict created in `start_test` (main.py:934-941):
`current_question = 0`, `answers = []`. -/
def startSession (testId : String) (userId : Int) (username : String)
    (now : Nat) : Session :=
  { testId := testId, currentQuestion := 0, answers := [],
    startTime := now, studentUsername := username, studentId := userId }

/-- `process_multiple_choice_answer` (main.py:1028-1061), state effect on the
stored session: look up `test.questions[current_question]` and
`question.options[answer_index]` (either missing raises before any mutation,
leaving the stored session unchanged), then append the `StudentAnswer` and
increment `current_question`. Correctness is exact equality of the selected
option with the correct answer. -/
def process_multiple_choice_answer (test : Test) (answerIndex : Nat)
    (session : Session) : Session :=
  match test.questions[session.currentQuestion]? with
  | none => session
  | some q =>
    match q.options.bind (fun opts => opts[answerIndex]?) with
    | none => session
    | some selectedAnswer =>
      { session with
        answers := session.answers ++
          [{ questionId := q.id, answer := selectedAnswer,
             isCorrect := selectedAnswer == q.correctAnswer, skipped := false }],
        currentQuestion := session.currentQuestion + 1 }

/-- `process_text_answer_from_student` (main.py:1085-1117), state effect:
`user_answer = message.text.strip()`;
`is_correct = user_answer.lower() == question.correct_answer.lower()`;
append the record and increment the index. -/
def process_text_answer_from_student (test : Test) (text : String)
    (session : Session) : Session :=
  match test.questions[session.currentQuestion]? with
  | none => session
  | some q =>
    let userAnswer := pyStrip text
    { session with
      answers := session.answers ++
        [{ questionId := q.id, answer := userAnswer,
           isCorrect := pyLower userAnswer == pyLower q.correctAnswer,
           skipped := false }],
      currentQuestion := session.currentQuestion + 1 }

/-- `skip_question` (main.py:1130-1159), state effect: append a skipped record
(`answer=""`, `is_correct=False`, `skipped=True`) and increment the index. -/
def skip_question (test : Test) (session : Session) : Session :=
  match test.questions[session.currentQuestion]? with
  | none => session
  | some q =>
    { session with
      answers := session.answers ++
        [{ questionId := q.id, answer := "", isCorrect := false, skipped := true }],
      currentQuestion := session.currentQuestion + 1 }

/-- The taking-machine events a stored session can process after Start. -/
inductive TakeEvent
  | submitChoice (answerIndex : Nat)
  | submitText (text : String)
  | skip
deriving DecidableEq, Repr

/-- Dispatch of one inbound event to the matching handler. -/
def takeStep (test : Test) (session : Session) : TakeEvent → Session
  | .submitChoice i => process_multiple_choice_answer test i session
  | .submitText t => process_text_answer_from_student test t session
  | .skip => skip_question test session

/-- The spec invariant `len(session.answers) == session.currentQuestionIndex`. -/
def sessionInv (s : Session) : Prop := s.answers.length = s.currentQuestion

instance (s : Session) : Decidable (sessionInv s) := by
  unfold sessionInv; infer_instance

/-! ## Teacher operations: delete and result views -/

/-- Outcome reported by `callback.answer` / the edited message in the teacher
handlers. -/
inductive TeacherOutcome
  | testNotFound
  | notAuthorized
  | deleted
  | shown (displayed : List TestResult)
deriving DecidableEq, Repr

/-- `delete_test` (main.py:762-787): missing test or non-owner caller returns
before any mutation; otherwise `del storage.tests[test_id]` and
`storage.test_results = [r for r in storage.test_results if r.test_id != test_id]`. -/
def delete_test (userId : Int) (testId : String) (s : DataStorage) :
    TeacherOutcome × DataStorage :=
  match dictGet testId s.tests with
  | none => (.testNotFound, s)
  | some t =>
    if ¬ t.teacherId = userId then (.notAuthorized, s)
    else (.deleted,
      { s with
        tests := dictDel testId s.tests,
        testResults := s.testResults.filter (fun r => decide (¬ r.testId = testId)) })

/-- Insertion of one result into a list kept in descending `completed_at`
order; used to model `list.sort(key=lambda r: r.completed_at, reverse=True)`. -/
def insertByCompletedDesc (r : TestResult) : List TestResult → List TestResult
  | [] => [r]
  | x :: xs =>
    if x.completedAt ≤ r.completedAt then r :: x :: xs
    else x :: insertByCompletedDesc r xs

/-- `test_results.sort(key=lambda r: r.completed_at, reverse=True)`
(main.py:869): sort most-recent-first by completion timestamp. -/
def sortByCompletedDesc : List TestResult → List TestResult
  | [] => []
  | x :: xs => insertByCompletedDesc x (sortByCompletedDesc xs)

/-- The list of results `view_test_results` (main.py:839-901) renders for an
authorized owner: the results of that test, sorted most-recent-first, first
ten shown (`test_results[:10]`). -/
def view_displayed (testId : String) (s : DataStorage) : List TestResult :=
  (sortByCompletedDesc (s.testResults.filter (fun r => r.testId == testId))).take 10

/-- `view_test_results` (main.py:839-901): missing test or non-owner caller is
rejected before anything else; otherwise the per-test results are rendered.
The handler never mutates the store (the sort acts on a fresh filtered list). -/
def view_test_results (userId : Int) (testId : String) (s : DataStorage) :
    TeacherOutcome × DataStorage :=
  match dictGet testId s.tests with
  | none => (.testNotFound, s)
  | some t =>
    if ¬ t.teacherId = userId then (.notAuthorized, s)
    else (.shown (view_displayed testId s), s)

/-- The per-test block of `show_test_results` (main.py:789-837): the caller's
tests are collected, their results grouped by test id in stored order, and for
each test the LAST five results (`results[-5:]`) are rendered in stored
order — no sort by completion timestamp. -/
def show_test_results_group (userId : Int) (testId : String) (s : DataStorage) :
    List TestResult :=
  let userTests := (s.tests.filter (fun p => p.2.teacherId == userId)).map (·.1)
  let userResults := s.testResults.filter (fun r => userTests.contains r.testId)
  let group := userResults.filter (fun r => r.testId == testId)
  group.drop (group.length - 5)

/-! ## Start command and deep link -/

/-- Observable messages emitted along the `/start` paths. -/
inductive StartEffect
  | testNotFound
  | rolePrompt
  | welcomeTeacher
  | welcomeStudent
  | testIntro (testId : String)
  | presentQuestion (index : Nat)
  | finishAttempt
deriving DecidableEq, Repr

/-- The plain `/start` path of `start_handler` (main.py:333-359): a user with
no stored role gets the role-selection keyboard, an already-known user gets
the role-specific welcome. -/
def regular_start (userId : Int) (s : DataStorage) :
    DataStorage × List StartEffect :=
  match dictGet userId s.users with
  | none => (s, [.rolePrompt])
  | some .teacher => (s, [.welcomeTeacher])
  | some .student => (s, [.welcomeStudent])

/-- `start_test` (main.py:923-956) followed by the first
`show_current_question` (main.py:958-1026): a missing or inactive test is
reported without creating a session; otherwise a fresh session with
`current_question = 0` is saved under the taker's id, the active-test pointer
is set, the intro message is sent, and question 0 is presented (or, were the
test empty, `finish_test` would be entered instead). -/
def start_test (userId : Int) (username : String) (now : Nat) (testId : String)
    (s : DataStorage) : DataStorage × List StartEffect :=
  match dictGet testId s.tests with
  | none => (s, [.testNotFound])
  | some t =>
    if ¬ t.active then (s, [.testNotFound])
    else
      let s' := { s with
        sessions := dictSet userId (startSession testId userId username now) s.sessions,
        activeTests := dictSet userId testId s.activeTests }
      if 0 < t.questions.length then
        (s', [.testIntro testId, .presentQuestion 0])
      else
        (s', [.testIntro testId, .finishAttempt])

/-- `start_handler` (main.py:315-359): when the command argument starts with
`test_`, the rest is the test id; if that id is a key of `storage.tests` the
user's role is set to STUDENT and `start_test` is invoked directly (no
role-selection step). An unknown id reports not-found and falls through to
the plain start; so does an argument of any other shape or no argument. -/
def start_handler (userId : Int) (username : String) (now : Nat)
    (arg : Option String) (s : DataStorage) : DataStorage × List StartEffect :=
  match arg with
  | some param =>
    if pyStartsWith param "test_" then
      let testId := pyDrop param 5
      if (dictGet testId s.tests).isSome then
        let s1 := { s with users := dictSet userId UserRole.student s.users }
        start_test userId username now testId s1
      else
        let rs := regular_start userId s
        (rs.1, .testNotFound :: rs.2)
    else regular_start userId s
  | none => regular_start userId s

/-! ## Persisted snapshot (`save_data` / `load_data`, main.py:1328-1439)

The JSON document written to `bot_data.json` is modelled structurally: one
record per serialized dict, field for field. Timestamps are serialized with
`datetime.isoformat()` and read back with `datetime.fromisoformat()`, an
exact inverse pair, so the serialized timestamp is modelled by the value it
denotes; likewise user-id keys (`str(k)` / `int(k)`). -/

/-- One entry of `test_data['questions']` as written by `save_data`:
`asdict(question)` with the enum replaced by its `.value`. -/
structure QuestionData where
  id : String
  text : String
  questionType : String
  options : Option (List String)
  correctAnswer : String
  photoFileId : Option String
deriving DecidableEq, Repr

/-- One entry of `data['tests']` as written by `save_data`. -/
structure TestData where
  id : String
  teacherId : Int
  teacherUsername : String
  questions : List QuestionData
  createdAt : Nat
  name : String
  active : Bool
deriving DecidableEq, Repr

/-- One serialized `StudentAnswer` dict. -/
structure AnswerData where
  questionId : String
  answer : String
  isCorrect : Bool
  skipped : Bool
deriving DecidableEq, Repr

/-- One entry of `data['test_results']` as written by `save_data`. -/
structure TestResultData where
  testId : String
  studentId : Int
  studentUsername : String
  answers : List AnswerData
  score : Nat
  totalQuestions : Nat
  percentage : Rat
  completedAt : Nat
  skippedCount : Nat
deriving DecidableEq, Repr

/-- The whole `bot_data.json` document: the three top-level collections. -/
structure BotData where
  users : List (Int × String)
  tests : List (String × TestData)
  test_results : List TestResultData
deriving DecidableEq, Repr

def serializeQuestion (q : Question) : QuestionData :=
  { id := q.id, text := q.text, questionType := q.questionType.value,
    options := q.options, correctAnswer := q.correctAnswer,
    photoFileId := q.photoFileId }

def serializeTest (t : Test) : TestData :=
  { id := t.id, teacherId := t.teacherId, teacherUsername := t.teacherUsername,
    questions := t.questions.map serializeQuestion, createdAt := t.createdAt,
    name := t.name, active := t.active }

def serializeAnswer (a : StudentAnswer) : AnswerData :=
  { questionId := a.questionId, answer := a.answer, isCorrect := a.isCorrect,
    skipped := a.skipped }

def serializeResult (r : TestResult) : TestResultData :=
  { testId := r.testId, studentId := r.studentId,
    studentUsername := r.studentUsername,
    answers := r.answers.map serializeAnswer, score := r.score,
    totalQuestions := r.totalQuestions, percentage := r.percentage,
    completedAt := r.completedAt, skippedCount := r.skippedCount }

/-- `save_data` (main.py:1328-1368): serialize the three in-memory
collections into the snapshot document. -/
def save_data (s : DataStorage) : BotData :=
  { users := s.users.map (fun p => (p.1, p.2.value)),
    tests := s.tests.map (fun p => (p.1, serializeTest p.2)),
    test_results := s.testResults.map serializeResult }

/-- `Question(...)` reconstruction in `load_data` (main.py:1384-1390): the
keyword arguments passed are `id`, `text`, `question_type`, `options` and
`correct_answer` only, so `photo_file_id` takes its dataclass default `None`.
An unknown enum value raises (whole load aborts). -/
def parseQuestion (q : QuestionData) : Option Question :=
  (QuestionType.ofValue q.questionType).map fun qt =>
    { id := q.id, text := q.text, questionType := qt, options := q.options,
      correctAnswer := q.correctAnswer, photoFileId := none }

/-- `Test(...)` reconstruction in `load_data` (main.py:1393-1401). -/
def parseTest (td : TestData) : Option Test :=
  (td.questions.mapM parseQuestion).map fun qs =>
    { id := td.id, teacherId := td.teacherId,
      teacherUsername := td.teacherUsername, questions := qs,
      createdAt := td.createdAt, name := td.name, active := td.active }

/-- `StudentAnswer(...)` / `TestResult(...)` reconstruction in `load_data`
(main.py:1405-1432); `skipped` and `skipped_count` fall back to their
defaults via `.get` when absent, which cannot happen for a freshly saved
document. -/
def parseResult (rd : TestResultData) : TestResult :=
  { testId := rd.testId, studentId := rd.studentId,
    studentUsername := rd.studentUsername,
    answers := rd.answers.map (fun a =>
      { questionId := a.questionId, answer := a.answer,
        isCorrect := a.isCorrect, skipped := a.skipped }),
    score := rd.score, totalQuestions := rd.totalQuestions,
    percentage := rd.percentage, completedAt := rd.completedAt,
    skippedCount := rd.skippedCount }

/-- `UserRole(role)` reconstruction in `load_data` (main.py:1377-1378). -/
def parseUser (p : Int × String) : Option (Int × UserRole) :=
  (UserRole.ofValue p.2).map (fun r => (p.1, r))

/-- `load_data` (main.py:1370-1439): rebuild the storage collections from the
snapshot document into a fresh store (sessions live in SQLite, not in the
snapshot). Any exception while decoding aborts the load (modelled as `none`). -/
def load_data (d : BotData) : Option DataStorage :=
  (d.users.mapM parseUser).bind fun us =>
  (d.tests.mapM (fun p => (parseTest p.2).map (fun t => (p.1, t)))).map fun ts =>
    { users := us, tests := ts, testResults := d.test_results.map parseResult,
      sessions := [], activeTests := [] }

/-! ## Concrete fixtures used by witnesses and counterexamples -/

/-- A ChoiceSet question without media. -/
def demoChoiceQ : Question :=
  { id := "q1", text := "Pick one", questionType := .multipleChoice,
    options := some ["cat", "dog"], correctAnswer := "dog", photoFileId := none }

/-- A FreeText question with a media reference and empty prompt text. -/
def demoTextQ : Question :=
  { id := "q2", text := "", questionType := .textInput, options := none,
    correctAnswer := "paris", photoFileId := some "photo123" }

/-- A test holding the two questions above. -/
def demoTest : Test :=
  { id := "t1", teacherId := 10, teacherUsername := "teach",
    questions := [demoChoiceQ, demoTextQ], createdAt := 1000,
    name := "demo", active := true }

/-- A store holding `demoTest` and nothing else. -/
def demoStore : DataStorage :=
  { users := [(10, .teacher)], tests := [("t1", demoTest)], testResults := [],
    sessions := [], activeTests := [] }

/-- Four answers: two correct, one skipped, one incorrect (spec scoring example). -/
def demoAnswers : List StudentAnswer :=
  [{ questionId := "a1", answer := "x", isCorrect := true, skipped := false },
   { questionId := "a2", answer := "y", isCorrect := true, skipped := false },
   { questionId := "a3", answer := "", isCorrect := false, skipped := true },
   { questionId := "a4", answer := "z", isCorrect := false, skipped := false }]

/-- A result completed at time 100. -/
def demoResultEarly : TestResult :=
  { testId := "t1", studentId := 20, studentUsername := "alice", answers := [],
    score := 1, totalQuestions := 2, percentage := 50, completedAt := 100,
    skippedCount := 0 }

/-- A later result for the same test, completed at time 200. -/
def demoResultLate : TestResult :=
  { testId := "t1", studentId := 21, studentUsername := "bob", answers := [],
    score := 2, totalQuestions := 2, percentage := 100, completedAt := 200,
    skippedCount := 0 }

/-- A result for a different test `t2`, completed at time 150. -/
def demoResultOther : TestResult :=
  { testId := "t2", studentId := 22, studentUsername := "carol", answers := [],
    score := 0, totalQuestions := 1, percentage := 0, completedAt := 150,
    skippedCount := 1 }

/-- A second test owned by the same teacher. -/
def demoTest2 : Test :=
  { id := "t2", teacherId := 10, teacherUsername := "teach",
    questions := [demoChoiceQ], createdAt := 2000, name := "other",
    active := true }

/-- A store with two tests and results stored in completion order
(earliest first, as the code appends on completion). -/
def demoResultStore : DataStorage :=
  { users := [(10, .teacher)],
    tests := [("t1", demoTest), ("t2", demoTest2)],
    testResults := [demoResultEarly, demoResultOther, demoResultLate],
    sessions := [], activeTests := [] }

/-- The FreeText correctness rule as the spec words it: trim the submitted
text, then compare case-insensitively for exact match against the stored
correct answer. -/
def specTextCorrect (submitted stored : String) : Bool :=
  pyLower (pyStrip submitted) == pyLower stored

/-- The question the wizard assembles from options `"cat\ndog"` and
selection index 1. -/
def demoBuiltQ : Question :=
  { id := "q9", text := "Pick", questionType := .multipleChoice,
    options := some ["cat", "dog"], correctAnswer := "dog", photoFileId := none }

/-- A taking session positioned on the FreeText question of `demoTest`. -/
def demoSession1 : Session :=
  { testId := "t1", currentQuestion := 1,
    answers := [{ questionId := "q1", answer := "dog", isCorrect := true,
                  skipped := false }],
    startTime := 5, studentUsername := "stu", studentId := 20 }

/-! ## Helper lemmas: dictionary lookups -/

theorem dictGet_filter_ne [DecidableEq κ] (k j : κ) (l : List (κ × α)) (h : ¬ k = j) :
    dictGet k (l.filter (fun p => decide (¬ p.1 = j))) = dictGet k l := by
  induction l with
  | nil => rfl
  | cons p rest ih =>
    obtain ⟨k', v⟩ := p
    by_cases hp : k' = j
    · subst hp
      have hk : ¬ k' = k := fun hh => h hh.symm
      simpa [List.filter, dictGet, hk] using ih
    · by_cases hk : k' = k
      · simp [List.filter, dictGet, hp, hk, h]
      · simpa [List.filter, dictGet, hp, hk] using ih

theorem dictGet_dictSet_self [DecidableEq κ] (k : κ) (v : α) (l : List (κ × α)) :
    dictGet k (dictSet k v l) = some v := by
  simp [dictSet, dictGet]

theorem dictGet_dictSet_ne [DecidableEq κ] (k j : κ) (v : α) (l : List (κ × α))
    (h : ¬ k = j) : dictGet k (dictSet j v l) = dictGet k l := by
  have hj : ¬ j = k := fun hh => h hh.symm
  simp only [dictSet, dictGet, if_neg hj]
  exact dictGet_filter_ne k j l h

theorem dictGet_dictDel_self [DecidableEq κ] (k : κ) (l : List (κ × α)) :
    dictGet k (dictDel k l) = none := by
  induction l with
  | nil => rfl
  | cons p rest ih =>
    obtain ⟨k', v⟩ := p
    by_cases hp : k' = k
    · simpa [dictDel, List.filter, hp] using ih
    · simpa [dictDel, List.filter, dictGet, hp] using ih

theorem dictGet_dictDel_ne [DecidableEq κ] (k j : κ) (l : List (κ × α))
    (h : ¬ k = j) : dictGet k (dictDel j l) = dictGet k l :=
  dictGet_filter_ne k j l h

/-! ## Helper lemmas: the taking-machine invariant -/

theorem start_test_users_unchanged (userId : Int) (username : String)
    (now : Nat) (testId : String) (s : DataStorage) :
    (start_test userId username now testId s).1.users = s.users := by
  unfold start_test
  split
  · rfl
  · split
    · rfl
    · split
      · rfl
      · rfl

theorem sessionInv_process_multiple_choice (test : Test) (i : Nat) (s : Session)
    (h : sessionInv s) : sessionInv (process_multiple_choice_answer test i s) := by
  unfold process_multiple_choice_answer
  split
  · exact h
  · split
    · exact h
    · simp only [sessionInv] at h ⊢
      simp [h]

theorem sessionInv_process_text (test : Test) (t : String) (s : Session)
    (h : sessionInv s) : sessionInv (process_text_answer_from_student test t s) := by
  unfold process_text_answer_from_student
  split
  · exact h
  · simp only [sessionInv] at h ⊢
    simp [h]

theorem sessionInv_skip (test : Test) (s : Session) (h : sessionInv s) :
    sessionInv (skip_question test s) := by
  unfold skip_question
  split
  · exact h
  · simp only [sessionInv] at h ⊢
    simp [h]

theorem sessionInv_takeStep (test : Test) (s : Session) (e : TakeEvent)
    (h : sessionInv s) : sessionInv (takeStep test s e) := by
  cases e with
  | submitChoice i => exact sessionInv_process_multiple_choice test i s h
  | submitText t => exact sessionInv_process_text test t s h
  | skip => exact sessionInv_skip test s h

theorem sessionInv_startSession {tid : String} {uid : Int} {un : String}
    {now : Nat} : sessionInv (startSession tid uid un now) := rfl

theorem sessionInv_foldl (test : Test) (s : Session) (h : sessionInv s)
    (evs : List TakeEvent) : sessionInv (evs.foldl (takeStep test) s) := by
  induction evs generalizing s with
  | nil => exact h
  | cons e rest ih => exact ih _ (sessionInv_takeStep test s e h)

/-! ## Helper lemmas: sortedness of the result sort -/

theorem mem_insertByCompletedDesc {b r : TestResult} {l : List TestResult}
    (hb : b ∈ insertByCompletedDesc r l) : b = r ∨ b ∈ l := by
  induction l with
  | nil => simpa [insertByCompletedDesc] using hb
  | cons x xs ih =>
    rw [insertByCompletedDesc] at hb
    by_cases hx : x.completedAt ≤ r.completedAt
    · rw [if_pos hx] at hb
      rcases List.mem_cons.mp hb with rfl | hb2
      · exact Or.inl rfl
      · exact Or.inr hb2
    · rw [if_neg hx] at hb
      rcases List.mem_cons.mp hb with rfl | hb2
      · exact Or.inr (List.mem_cons_self _ _)
      · rcases ih hb2 with rfl | h2
        · exact Or.inl rfl
        · exact Or.inr (List.mem_cons_of_mem _ h2)

theorem pairwise_insertByCompletedDesc (r : TestResult) (l : List TestResult)
    (h : l.Pairwise (fun a b => b.completedAt ≤ a.completedAt)) :
    (insertByCompletedDesc r l).Pairwise
      (fun a b => b.completedAt ≤ a.completedAt) := by
  induction l with
  | nil => simp [insertByCompletedDesc]
  | cons x xs ih =>
    rw [insertByCompletedDesc]
    by_cases hx : x.completedAt ≤ r.completedAt
    · rw [if_pos hx]
      refine List.Pairwise.cons ?_ h
      intro b hb
      rcases List.mem_cons.mp hb with rfl | hb2
      · exact hx
      · exact le_trans (List.rel_of_pairwise_cons h hb2) hx
    · rw [if_neg hx]
      rcases List.pairwise_cons.mp h with ⟨hxall, hxs⟩
      refine List.Pairwise.cons ?_ (ih hxs)
      intro b hb
      rcases mem_insertByCompletedDesc hb with rfl | hb2
      · exact le_of_not_le hx
      · exact hxall b hb2

theorem pairwise_sortByCompletedDesc (l : List TestResult) :
    (sortByCompletedDesc l).Pairwise
      (fun a b => b.completedAt ≤ a.completedAt) := by
  induction l with
  | nil => exact List.Pairwise.nil
  | cons x xs ih => exact pairwise_insertByCompletedDesc x _ ih

/-! ## Claim theorems -/

/-- Claim C1: the round trip `load_data` after `save_data` is NOT
field-for-field lossless. Evidence for the code bug: saving the demo store —
whose test holds a ChoiceSet question without media and a FreeText question
with media reference "photo123" and empty prompt text — and reloading yields
the test with the FreeText question's media reference replaced by `none`
(`load_data` rebuilds `Question` without passing `photo_file_id`, main.py:1384),
so the reloaded test differs from the saved one exactly there. -/
theorem C1_media_reference_lost_on_reload :
    (load_data (save_data demoStore)).bind (fun s => dictGet "t1" s.tests) =
      some { demoTest with
             questions := [demoChoiceQ, { demoTextQ with photoFileId := none }] } ∧
    ¬ (load_data (save_data demoStore)).bind (fun s => dictGet "t1" s.tests) =
        some demoTest ∧
    demoTextQ.photoFileId = some "photo123" := by decide

/-- Claim C2, counterexample to the zero-total clause: with zero total
questions the score computation of `finish_test` performs `(0 / 0) * 100`,
which raises ZeroDivisionError — no percentage (in particular not 0) is
produced. -/
theorem C2_counterexample_zero_total : computeScore [] 0 = none := rfl

/-- Claim C2 (amended): for every finished taking session with a positive
total question count, `finish_test` computes percentage =
correct-count / total-question-count × 100; when the total is zero the
computation fails with ZeroDivisionError instead of yielding 0. -/
theorem C2_percentage_formula (answers : List StudentAnswer) (total : Nat)
    (h : 0 < total) :
    computeScore answers total =
      some ((answers.filter (·.isCorrect)).length,
            (answers.filter (·.skipped)).length,
            ((answers.filter (·.isCorrect)).length : Rat) / (total : Rat) * 100) := by
  simp only [computeScore]
  rw [if_neg (by omega)]

/-- Witness for C2 at the spec's own example: four questions, two answered
correctly, one skipped, one wrong, gives score (2, 1, 50%). -/
theorem C2_percentage_formula_witness :
    computeScore demoAnswers 4 = some (2, 1, 50) := by
  rw [C2_percentage_formula demoAnswers 4 (by norm_num)]
  have h1 : (demoAnswers.filter (·.isCorrect)).length = 2 := by decide
  have h2 : (demoAnswers.filter (·.skipped)).length = 1 := by decide
  rw [h1, h2]
  norm_num

/-- Claim C3: `len(session.answers) == session.current_question` holds before
and after every processed event — Start creates the session with both 0; every
handler maps an invariant-satisfying session to an invariant-satisfying one;
when the current question exists, Skip, Submit-text and (for a resolvable
selection) Submit-choice each append exactly one record and increment the
index by exactly one; and after any event sequence from Start the invariant
still holds. -/
theorem C3_answers_length_invariant (test : Test) (tid : String) (uid : Int)
    (un : String) (now : Nat) :
    ((startSession tid uid un now).answers.length = 0 ∧
     (startSession tid uid un now).currentQuestion = 0) ∧
    (∀ (s : Session) (e : TakeEvent),
       sessionInv s → sessionInv (takeStep test s e)) ∧
    (∀ (s : Session) (q : Question),
       test.questions[s.currentQuestion]? = some q →
       ((skip_question test s).answers.length = s.answers.length + 1 ∧
        (skip_question test s).currentQuestion = s.currentQuestion + 1) ∧
       (∀ txt : String,
          (process_text_answer_from_student test txt s).answers.length =
            s.answers.length + 1 ∧
          (process_text_answer_from_student test txt s).currentQuestion =
            s.currentQuestion + 1) ∧
       (∀ (i : Nat) (sel : String),
          q.options.bind (fun opts => opts[i]?) = some sel →
          (process_multiple_choice_answer test i s).answers.length =
            s.answers.length + 1 ∧
          (process_multiple_choice_answer test i s).currentQuestion =
            s.currentQuestion + 1)) ∧
    (∀ evs : List TakeEvent,
       sessionInv (evs.foldl (takeStep test) (startSession tid uid un now))) := by
  refine ⟨⟨rfl, rfl⟩, fun s e h => sessionInv_takeStep test s e h, ?_, ?_⟩
  · intro s q hq
    refine ⟨?_, ?_, ?_⟩
    · unfold skip_question
      rw [hq]
      simp
    · intro txt
      unfold process_text_answer_from_student
      rw [hq]
      simp
    · intro i sel hsel
      unfold process_multiple_choice_answer
      rw [hq]
      simp [hsel]
  · intro evs
    exact sessionInv_foldl test _ sessionInv_startSession evs

/-- Witness for C3: concrete sessions over the demo test. -/
theorem C3_answers_length_invariant_witness :
    sessionInv (takeStep demoTest (startSession "t1" 20 "stu" 5) .skip) ∧
    sessionInv ([TakeEvent.skip, .submitChoice 1, .submitText " Paris "].foldl
      (takeStep demoTest) (startSession "t1" 20 "stu" 5)) ∧
    (skip_question demoTest (startSession "t1" 20 "stu" 5)).answers.length =
      (startSession "t1" 20 "stu" 5).answers.length + 1 :=
  ⟨(C3_answers_length_invariant demoTest "t1" 20 "stu" 5).2.1 _ _ (by decide),
   (C3_answers_length_invariant demoTest "t1" 20 "stu" 5).2.2.2 _,
   (((C3_answers_length_invariant demoTest "t1" 20 "stu" 5).2.2.1
      (startSession "t1" 20 "stu" 5) demoChoiceQ (by decide)).1).1⟩

/-- Claim C4: a start command whose argument has the form `test_<testId>`,
where `testId` is a stored active test (with at least one question, as every
persisted test has), immediately begins a taking session: the handler emits
exactly the test intro and the presentation of question 0 (no role-selection
prompt), and a session with current-question-index 0 for that test is stored
under the caller's id. -/
theorem C4_deep_link_starts_taking (userId : Int) (username : String)
    (now : Nat) (param testId : String) (s : DataStorage) (t : Test)
    (hform : pyStartsWith param "test_" = true)
    (hid : pyDrop param 5 = testId)
    (hmem : dictGet testId s.tests = some t)
    (hactive : t.active = true)
    (hq : 0 < t.questions.length) :
    ∃ s' : DataStorage,
      start_handler userId username now (some param) s =
        (s', [StartEffect.testIntro testId, StartEffect.presentQuestion 0]) ∧
      dictGet userId s'.sessions = some (startSession testId userId username now) ∧
      (startSession testId userId username now).currentQuestion = 0 ∧
      (startSession testId userId username now).testId = testId := by
  have heq : start_handler userId username now (some param) s =
      ({ s with
          users := dictSet userId UserRole.student s.users,
          sessions :=
            dictSet userId (startSession testId userId username now) s.sessions,
          activeTests := dictSet userId testId s.activeTests },
       [StartEffect.testIntro testId, StartEffect.presentQuestion 0]) := by
    unfold start_handler start_test
    simp [hform, hid, hmem, hactive, hq]
  rw [heq]
  exact ⟨_, rfl, dictGet_dictSet_self _ _ _, rfl, rfl⟩

/-- Witness for C4: a fresh user deep-links into the demo test. -/
theorem C4_deep_link_starts_taking_witness :
    ∃ s' : DataStorage,
      start_handler 20 "stu" 7 (some "test_t1") demoStore =
        (s', [StartEffect.testIntro "t1", StartEffect.presentQuestion 0]) ∧
      dictGet 20 s'.sessions = some (startSession "t1" 20 "stu" 7) ∧
      (startSession "t1" 20 "stu" 7).currentQuestion = 0 ∧
      (startSession "t1" 20 "stu" 7).testId = "t1" :=
  C4_deep_link_starts_taking 20 "stu" 7 "test_t1" "t1" demoStore demoTest
    (by decide) (by decide) (by decide) (by decide) (by decide)

/-- Claim C5: an owner-initiated deletion of test T removes T from the test
store, removes every TestResult whose test identifier equals T's, and leaves
every other test, every result for a different test, and the remaining tables
unchanged. -/
theorem C5_delete_cascades (userId : Int) (testId : String) (s : DataStorage)
    (t : Test) (hmem : dictGet testId s.tests = some t)
    (howner : t.teacherId = userId) :
    ∃ s' : DataStorage,
      delete_test userId testId s = (.deleted, s') ∧
      dictGet testId s'.tests = none ∧
      (∀ otherId : String, ¬ otherId = testId →
         dictGet otherId s'.tests = dictGet otherId s.tests) ∧
      (∀ r : TestResult, r ∈ s'.testResults ↔
         r ∈ s.testResults ∧ ¬ r.testId = testId) ∧
      s'.users = s.users ∧ s'.sessions = s.sessions ∧
      s'.activeTests = s.activeTests := by
  have heq : delete_test userId testId s =
      (.deleted,
       { s with
          tests := dictDel testId s.tests,
          testResults :=
            s.testResults.filter (fun r => decide (¬ r.testId = testId)) }) := by
    unfold delete_test
    rw [hmem]
    simp [howner]
  rw [heq]
  refine ⟨_, rfl, dictGet_dictDel_self _ _, ?_, ?_, rfl, rfl, rfl⟩
  · intro otherId hne
    exact dictGet_dictDel_ne otherId testId s.tests hne
  · intro r
    simp [List.mem_filter]

/-- Witness for C5: the owner deletes test t1 from the store holding results
for t1 and for the unrelated test t2. -/
theorem C5_delete_cascades_witness :
    ∃ s' : DataStorage,
      delete_test 10 "t1" demoResultStore = (.deleted, s') ∧
      dictGet "t1" s'.tests = none ∧
      (∀ otherId : String, ¬ otherId = "t1" →
         dictGet otherId s'.tests = dictGet otherId demoResultStore.tests) ∧
      (∀ r : TestResult, r ∈ s'.testResults ↔
         r ∈ demoResultStore.testResults ∧ ¬ r.testId = "t1") ∧
      s'.users = demoResultStore.users ∧
      s'.sessions = demoResultStore.sessions ∧
      s'.activeTests = demoResultStore.activeTests :=
  C5_delete_cascades 10 "t1" demoResultStore demoTest (by decide) (by decide)

/-- Claim C6: a caller who does not own a stored test gets the
authorization-error notification from both the delete handler and the
results-view handler, and the store is returned unchanged in both cases. -/
theorem C6_unauthorized_no_mutation (userId : Int) (testId : String)
    (s : DataStorage) (t : Test) (hmem : dictGet testId s.tests = some t)
    (hne : ¬ t.teacherId = userId) :
    delete_test userId testId s = (.notAuthorized, s) ∧
    view_test_results userId testId s = (.notAuthorized, s) := by
  constructor
  · unfold delete_test
    rw [hmem]
    simp only [if_pos hne]
  · unfold view_test_results
    rw [hmem]
    simp only [if_pos hne]

/-- Witness for C6: user 99 does not own demo test t1. -/
theorem C6_unauthorized_no_mutation_witness :
    delete_test 99 "t1" demoResultStore = (.notAuthorized, demoResultStore) ∧
    view_test_results 99 "t1" demoResultStore =
      (.notAuthorized, demoResultStore) :=
  C6_unauthorized_no_mutation 99 "t1" demoResultStore demoTest
    (by decide) (by decide)

/-- Claim C7: every ChoiceSet question assembled by the wizard records a
correct answer that is a member of the question's options list — the answer
is captured by selection index into the options just validated by
`process_options`. -/
theorem C7_correct_answer_in_options (qid text optionsText : String)
    (correctIndex : Nat) (photo : Option String) (q : Question)
    (hq : buildChoiceQuestion qid text optionsText correctIndex photo = some q) :
    ∃ opts : List String, q.options = some opts ∧ q.correctAnswer ∈ opts := by
  unfold buildChoiceQuestion process_correct_answer_choice at hq
  cases hpo : process_options optionsText with
  | none => rw [hpo] at hq; simp at hq
  | some opts =>
    rw [hpo] at hq
    simp only [Option.some_bind] at hq
    cases hgi : opts[correctIndex]? with
    | none => rw [hgi] at hq; simp at hq
    | some ans =>
      rw [hgi] at hq
      simp at hq
      subst hq
      exact ⟨opts, rfl, List.getElem?_mem hgi⟩

/-- Witness for C7: two options entered on separate lines, correct answer
selected by index 1. -/
theorem C7_correct_answer_in_options_witness :
    ∃ opts : List String,
      demoBuiltQ.options = some opts ∧ demoBuiltQ.correctAnswer ∈ opts :=
  C7_correct_answer_in_options "q9" "Pick" "cat\ndog" 1 none demoBuiltQ
    (by decide)

/-- Claim C8: for every FreeText question the student handler scores a
submission by trimming it and comparing case-insensitively for exact match
against the stored correct answer (the record it appends carries exactly
that verdict and the trimmed text). -/
theorem C8_text_correctness (test : Test) (s : Session) (q : Question)
    (text : String) (hq : test.questions[s.currentQuestion]? = some q) :
    (process_text_answer_from_student test text s).answers =
      s.answers ++
        [{ questionId := q.id, answer := pyStrip text,
           isCorrect := specTextCorrect text q.correctAnswer,
           skipped := false }] := by
  unfold process_text_answer_from_student specTextCorrect
  rw [hq]

/-- Witness for C8: submitting `"Paris"` against the stored answer
`"paris"` is judged correct. -/
theorem C8_text_correctness_witness :
    (process_text_answer_from_student demoTest "Paris" demoSession1).answers =
      demoSession1.answers ++
        [{ questionId := "q2", answer := "Paris", isCorrect := true,
           skipped := false }] := by
  rw [C8_text_correctness demoTest demoSession1 demoTextQ "Paris" (by decide)]
  decide

/-- Claim C9, counterexample: the aggregate results view
(`show_test_results`) is also a display of a test's results to its owner, and
it shows the last five stored results in insertion order — here
`[demoResultEarly, demoResultLate]` with completion times 100 then 200, which
is not most-recent-first. -/
theorem C9_counterexample_aggregate_view_unsorted :
    show_test_results_group 10 "t1" demoResultStore =
      [demoResultEarly, demoResultLate] ∧
    ¬ List.Pairwise (fun a b : TestResult => b.completedAt ≤ a.completedAt)
        (show_test_results_group 10 "t1" demoResultStore) := by decide

/-- Claim C9 (amended): the per-test results view (`view_test_results`)
displays results most-recent-first by completion timestamp; the aggregate
view (`show_test_results`) instead shows each test's last five stored
results in insertion order, unsorted. -/
theorem C9_per_test_view_sorted_desc (testId : String) (s : DataStorage) :
    List.Pairwise (fun a b : TestResult => b.completedAt ≤ a.completedAt)
      (view_displayed testId s) := by
  unfold view_displayed
  exact (pairwise_sortByCompletedDesc _).sublist (List.take_sublist _ _)

/-- Claim C10: a start command with argument `test_<testId>` for an id that
exists in the test store sets the caller's stored role to STUDENT
unconditionally — here stated for a caller who already holds some role
(teacher included), which is overwritten before the session starts. -/
theorem C10_role_overwritten_to_student (userId : Int) (username : String)
    (now : Nat) (param testId : String) (s : DataStorage) (t : Test)
    (oldRole : UserRole)
    (hform : pyStartsWith param "test_" = true)
    (hid : pyDrop param 5 = testId)
    (hmem : dictGet testId s.tests = some t)
    (_hrole : dictGet userId s.users = some oldRole) :
    dictGet userId (start_handler userId username now (some param) s).1.users =
      some UserRole.student := by
  unfold start_handler
  simp only [hform, hid, hmem, Option.isSome_some, if_true]
  rw [start_test_users_unchanged]
  exact dictGet_dictSet_self _ _ _

/-- Witness for C10: the teacher who owns the demo test deep-links into it
and is demoted to the student role. -/
theorem C10_role_overwritten_to_student_witness :
    dictGet 10 (start_handler 10 "teach" 9 (some "test_t1") demoStore).1.users =
      some UserRole.student :=
  C10_role_overwritten_to_student 10 "teach" 9 "test_t1" "t1" demoStore
    demoTest .teacher (by decide) (by decide) (by decide) (by decide)

end BotQA
